import Mathlib

/-!
Verification of the super-roast-bot conversational agent core.

This file gives a shallow embedding, in Lean 4, of the algorithmic core of the
repository: the scored memory store (`memory.py`), the importance-aware token
trimmer (`utils/token_guard.py`), the user-profile importance scorer
(`utils/user_profile.py`), the retrieval engine (`rag.py`) and the chat-turn
handlers (`app.py`).  Each definition is translated from the corresponding
Python source; theorems at the end settle the specification claims.
-/

namespace RoastBot

/-! ## Data model (memory.py) -/

/-- A single chat message annotated with an importance score
(`memory.py`, `class ScoredMessage`). -/
structure ScoredMessage where
  role : String
  content : String
  importance : Int
deriving Repr, DecidableEq

/-- A plain role/content message, the result of `ScoredMessage.to_dict`. -/
structure Message where
  role : String
  content : String
deriving Repr, DecidableEq

/-- `ScoredMessage.to_dict` from `memory.py`: drop the importance annotation. -/
def ScoredMessage.to_dict (m : ScoredMessage) : Message :=
  ⟨m.role, m.content⟩

/-! ## Token guard (utils/token_guard.py)

The tokenizer is abstracted as `encode : String → Nat`, the length of
`tokenizer.encode(text)` in the source.  `trim_chat_history` accepts any
tokenizer object with an `encode` method, so theorems quantify over `encode`.
-/

/-- `_get_content` from `token_guard.py` (ScoredMessage path). -/
def _get_content (m : ScoredMessage) : String := m.content

/-- `_get_importance` from `token_guard.py` (ScoredMessage path). -/
def _get_importance (m : ScoredMessage) : Int := m.importance

/-- Python `sep.join(l)`. -/
def joinSep (sep : String) : List String → String
  | [] => ""
  | [s] => s
  | s :: rest => s ++ sep ++ joinSep sep rest

/-- `_count_tokens_list` from `token_guard.py`: join the non-empty message
contents with single spaces and measure the result with the tokenizer. -/
def _count_tokens_list (encode : String → Nat) (messages : List ScoredMessage) : Nat :=
  encode (joinSep " " ((messages.map _get_content).filter (fun c => c ≠ "")))

/-- Helper for `idxOfMin`: scan the remaining values keeping the current best
value and its index; a strictly smaller value replaces the best, so ties keep
the earliest index — exactly Python `min(candidates, key=lambda i: (imp, i))`. -/
def idxOfMinGo : List Int → Int → Nat → Nat → Nat
  | [], _, best, _ => best
  | a :: rest, bv, best, i =>
    if a < bv then idxOfMinGo rest a i (i + 1) else idxOfMinGo rest bv best (i + 1)

/-- Index of the first minimum of a list of importances (`drop_idx` selection
in `trim_chat_history`). -/
def idxOfMin : List Int → Nat
  | [] => 0
  | a :: rest => idxOfMinGo rest a 0 1

/-- `PROTECTED_TAIL` constant from `trim_chat_history`. -/
def PROTECTED_TAIL : Nat := 2

/-- `MIN_MESSAGES` constant from `trim_chat_history`. -/
def MIN_MESSAGES : Nat := 2

/-- One iteration of the importance-aware trimming loop of
`trim_chat_history` (token_guard.py lines 129-162), for histories of
`ScoredMessage` objects (the path the memory store feeds).

Notes on the translation:
* `candidates = list(range(len(working) - PROTECTED_TAIL))`; `if not
  candidates: break` is the `candidates = 0` branch (unreachable while the
  loop guard holds, since the guard gives `len(working) > 2`).
* `drop_idx + 1 not in range(len(working) - PROTECTED_TAIL)` is, for the
  always-nonnegative `drop_idx + 1`, exactly `¬ (drop_idx + 1 <
  len(working) - PROTECTED_TAIL)`.
* when that branch is taken, line 151 runs
  `getattr(next_msg, "role", next_msg.get("role", "user"))`;
  `getattr`'s default argument is evaluated eagerly and `ScoredMessage`
  has no `get` method, so the call raises `AttributeError` before any
  message is popped.  The complementary-role check and the double pop on
  lines 152-162 are therefore unreachable for `ScoredMessage` histories
  (verified against the source interpreter). -/
def trimStep (working : List ScoredMessage) : Except String (List ScoredMessage) :=
  let candidates := working.length - PROTECTED_TAIL
  if candidates = 0 then Except.ok working
  else
    let dropIdx := idxOfMin ((working.take candidates).map _get_importance)
    if dropIdx + 1 < working.length ∧ ¬ (dropIdx + 1 < working.length - PROTECTED_TAIL) then
      Except.error "AttributeError: ScoredMessage object has no attribute get"
    else
      Except.ok (working.eraseIdx dropIdx)

/-- The importance-aware `while` loop of `trim_chat_history`, with explicit
fuel.  Every guarded iteration removes at least one message, so fuel equal to
the initial list length always suffices for the loop to reach its exit
condition. -/
def trimLoop (encode : String → Nat) (maxTokens : Int) :
    Nat → List ScoredMessage → Except String (List ScoredMessage)
  | 0, working => Except.ok working
  | fuel + 1, working =>
    if (_count_tokens_list encode working : Int) > maxTokens ∧
        working.length > MIN_MESSAGES then
      match trimStep working with
      | Except.error e => Except.error e
      | Except.ok working' => trimLoop encode maxTokens fuel working'
    else Except.ok working

/-- The hard recency-fallback `while` loop of `trim_chat_history`
(`working.pop(0)` is `List.tail` for the nonempty lists the guard allows). -/
def recencyLoop (encode : String → Nat) (maxTokens : Int) :
    Nat → List ScoredMessage → List ScoredMessage
  | 0, w => w
  | fuel + 1, w =>
    if (_count_tokens_list encode w : Int) > maxTokens ∧ w.length > MIN_MESSAGES then
      recencyLoop encode maxTokens fuel w.tail
    else w

/-- `trim_chat_history` from `token_guard.py`: fast path when within budget,
then importance-aware trimming, then recency fallback, returning plain
role/content messages — or the uncaught `AttributeError` raised by the
pair-drop branch (the function installs no exception handler). -/
def trim_chat_history (encode : String → Nat) (maxTokens : Int)
    (chat_history : List ScoredMessage) : Except String (List Message) :=
  if chat_history.isEmpty then Except.ok []
  else if (_count_tokens_list encode chat_history : Int) ≤ maxTokens then
    Except.ok (chat_history.map ScoredMessage.to_dict)
  else
    match trimLoop encode maxTokens chat_history.length chat_history with
    | Except.error e => Except.error e
    | Except.ok w1 =>
      let w2 := recencyLoop encode maxTokens w1.length w1
      Except.ok (w2.map ScoredMessage.to_dict)

/-! ## Scored memory store (memory.py)

The module-level store `_store` is a `deque` with `maxlen = MAX_MEMORY * 2`;
appending to a full deque silently drops the oldest entry.  The store is
modelled as a `List ScoredMessage` threaded explicitly through the
operations. -/

/-- `MAX_MEMORY` from `memory.py` (cap of 20 message-pairs). -/
def MAX_MEMORY : Nat := 20

/-- One `deque.append` on a deque with `maxlen = cap`: when the deque is
full the oldest (front) element is dropped. -/
def dequeAppend (cap : Nat) (s : List ScoredMessage) (m : ScoredMessage) :
    List ScoredMessage :=
  if s.length ≥ cap then s.tail ++ [m] else s ++ [m]

/-- `add_to_memory` from `memory.py`: append a user/assistant pair carrying
the same importance score to the capped deque. -/
def add_to_memory (user_msg bot_msg : String) (importance : Int)
    (store : List ScoredMessage) : List ScoredMessage :=
  dequeAppend (MAX_MEMORY * 2)
    (dequeAppend (MAX_MEMORY * 2) store ⟨"user", user_msg, importance⟩)
    ⟨"assistant", bot_msg, importance⟩

/-- Replay a sequence of `add_to_memory` calls (each element is the
`(user_msg, bot_msg, importance)` triple of one call) against a store. -/
def applyAdds : List (String × String × Int) → List ScoredMessage → List ScoredMessage
  | [], store => store
  | (u, b, i) :: rest, store => applyAdds rest (add_to_memory u b i store)

/-- The store obtained by laying out the given user/assistant pairs in
order; used to characterise the shape `add_to_memory` preserves. -/
def pairsToStore : List (String × String × Int) → List ScoredMessage
  | [] => []
  | (u, b, i) :: rest =>
    ⟨"user", u, i⟩ :: ⟨"assistant", b, i⟩ :: pairsToStore rest

/-- Structural well-formedness of the memory store: messages come in
consecutive pairs, each pair a `"user"` message followed by an
`"assistant"` message carrying the same importance. -/
def pairWF : List ScoredMessage → Prop
  | [] => True
  | [_] => False
  | m1 :: m2 :: rest =>
    m1.role = "user" ∧ m2.role = "assistant" ∧ m1.importance = m2.importance ∧ pairWF rest

/-! ## Python string primitives

All text manipulation is done over `List Char` so that every operation
mirrors Python's code-point semantics (slicing, `strip`, `split`,
`str.lower`, `in`).  ASCII inputs are modelled exactly; the keyword banks
and all concrete inputs in the theorems are ASCII. -/

/-- Python `\w` word character (ASCII range): letters, digits, underscore. -/
def wordChar (c : Char) : Bool := c.isAlphanum || c = '_'

/-- Python `str.lower()`. -/
def lowerStr (s : String) : String := String.mk (s.toList.map Char.toLower)

/-- Python slicing `s[:n]` (by code points). -/
def takeChars (n : Nat) (s : String) : String := String.mk (s.toList.take n)

/-- Python `str.strip()`: drop leading and trailing whitespace. -/
def pyStrip (s : String) : String :=
  String.mk (((s.toList.dropWhile Char.isWhitespace).reverse.dropWhile Char.isWhitespace).reverse)

/-- Maximal runs of characters satisfying `keep`, left to right; the
accumulator holds the current run reversed. -/
def runsGo (keep : Char → Bool) : List Char → List Char → List String
  | [], acc => if acc.isEmpty then [] else [String.mk acc.reverse]
  | c :: cs, acc =>
    if keep c then runsGo keep cs (c :: acc)
    else if acc.isEmpty then runsGo keep cs []
    else String.mk acc.reverse :: runsGo keep cs []

/-- Maximal runs of characters satisfying `keep` in a string. -/
def runsOf (keep : Char → Bool) (s : String) : List String := runsGo keep s.toList []

/-- Python `str.split()` with no arguments: whitespace-separated words. -/
def splitWs (s : String) : List String := runsOf (fun c => !c.isWhitespace) s

/-- Python `re.findall(r"\b\w+\b", s)`: the maximal word-character runs. -/
def wordsOf (s : String) : List String := runsOf wordChar s

/-- If `needle` is a prefix of `hay`, return the remaining suffix. -/
def prefAt : List Char → List Char → Option (List Char)
  | [], rest => some rest
  | _ :: _, [] => none
  | a :: as, b :: bs => if a = b then prefAt as bs else none

/-- Python `needle in hay` (substring containment). -/
def hasSub (needle : List Char) : List Char → Bool
  | [] => (prefAt needle []).isSome
  | c :: cs => (prefAt needle (c :: cs)).isSome || hasSub needle (cs)

/-! ## Disclosure regexes (utils/user_profile.py)

`_SKILL_PATTERNS` and `_WEAKNESS_PATTERNS` are regexes of the shape
`\b(alt1|alt2|...)\b` where every alternative is a literal phrase (after
expanding the optional apostrophes `'?`, greedy branch first), except the
skill alternative `i(?:'m| am) (?:a|an) \w+` whose branches are a literal
followed by a greedy `\w+`.  Every alternative begins and ends with a word
character, so the leading `\b` holds exactly when the previous character is
not a word character, and after a match the scanner resumes right after a
word character.  `re.findall` scans left to right, tries the alternatives
in pattern order at each position, and continues after the matched text. -/

/-- The apostrophe character (kept out of string literals). -/
def aposC : Char := Char.ofNat 39

/-- The apostrophe as a one-character string. -/
def aposS : String := String.mk [aposC]

/-- One expanded regex alternative: a literal phrase and whether a greedy
`\w+` follows it (the `i'm a \w+` branches). -/
structure Alt where
  lit : String
  wordSuffix : Bool

/-- Try one alternative at the current position: the literal must be a
prefix, and the trailing word boundary (or the `\w+` requirement) must
hold; returns the unconsumed suffix on success. -/
def tryAlt (alt : Alt) (cs : List Char) : Option (List Char) :=
  match prefAt alt.lit.toList cs with
  | none => none
  | some rest =>
    if alt.wordSuffix then
      match rest with
      | [] => none
      | c :: _ => if wordChar c then some (rest.dropWhile wordChar) else none
    else
      match rest with
      | [] => some []
      | c :: _ => if wordChar c then none else some rest

/-- Try the alternatives in pattern order, returning the suffix after the
first that matches. -/
def tryAlts : List Alt → List Char → Option (List Char)
  | [], _ => none
  | alt :: alts, cs =>
    match tryAlt alt cs with
    | some rest => some rest
    | none => tryAlts alts cs

/-- Non-overlapping match count of `re.findall` for an alternation of
word-bounded phrases.  `prevWord` records whether the preceding character is
a word character (false at the start of the string); a match may only start
at a word boundary.  Every alternative consumes at least one character, so
fuel `length + 1` is enough for the scan to finish. -/
def countMatchesGo (alts : List Alt) : Nat → Bool → List Char → Nat
  | 0, _, _ => 0
  | _ + 1, _, [] => 0
  | fuel + 1, prevWord, c :: cs =>
    if prevWord then countMatchesGo alts fuel (wordChar c) cs
    else
      match tryAlts alts (c :: cs) with
      | some rest => 1 + countMatchesGo alts fuel true rest
      | none => countMatchesGo alts fuel (wordChar c) cs

/-- Number of `re.findall` matches of the alternation in a string. -/
def countMatches (alts : List Alt) (s : String) : Nat :=
  countMatchesGo alts (s.toList.length + 1) false s.toList

/-- `_SKILL_PATTERNS` from `user_profile.py`, expanded into ordered
alternatives: `i (?:am|can|know|built|made|work|use|code|wrote|designed|
developed|lead|created)`, then `my (?:project|work|job|startup|company|
code|app|bot|api|skill)`, then `i(?:'m| am) (?:a|an) \w+` (the `i am`
branches of the last alternative are unreachable because the first
alternative already matches `i am`, but they are kept for faithfulness). -/
def SKILL_ALTS : List Alt :=
  [⟨"i am", false⟩, ⟨"i can", false⟩, ⟨"i know", false⟩, ⟨"i built", false⟩,
   ⟨"i made", false⟩, ⟨"i work", false⟩, ⟨"i use", false⟩, ⟨"i code", false⟩,
   ⟨"i wrote", false⟩, ⟨"i designed", false⟩, ⟨"i developed", false⟩,
   ⟨"i lead", false⟩, ⟨"i created", false⟩,
   ⟨"my project", false⟩, ⟨"my work", false⟩, ⟨"my job", false⟩,
   ⟨"my startup", false⟩, ⟨"my company", false⟩, ⟨"my code", false⟩,
   ⟨"my app", false⟩, ⟨"my bot", false⟩, ⟨"my api", false⟩, ⟨"my skill", false⟩,
   ⟨"i" ++ aposS ++ "m a ", true⟩, ⟨"i" ++ aposS ++ "m an ", true⟩,
   ⟨"i am a ", true⟩, ⟨"i am an ", true⟩]

/-- `_WEAKNESS_PATTERNS` from `user_profile.py`, expanded into ordered
alternatives (each `'?` expands to the apostrophe branch first, matching
the greedy optional). -/
def WEAK_ALTS : List Alt :=
  [⟨"i can" ++ aposS ++ "t", false⟩, ⟨"i cant", false⟩,
   ⟨"i couldn" ++ aposS ++ "t", false⟩, ⟨"i couldnt", false⟩,
   ⟨"i don" ++ aposS ++ "t know", false⟩, ⟨"i dont know", false⟩,
   ⟨"i failed", false⟩, ⟨"i forgot", false⟩, ⟨"i broke", false⟩,
   ⟨"i messed", false⟩, ⟨"i struggle", false⟩, ⟨"i suck", false⟩,
   ⟨"i don" ++ aposS ++ "t understand", false⟩, ⟨"i dont understand", false⟩,
   ⟨"my code", false⟩, ⟨"my bug", false⟩, ⟨"my error", false⟩,
   ⟨"my mistake", false⟩, ⟨"my issue", false⟩, ⟨"my problem", false⟩,
   ⟨"why doesn" ++ aposS ++ "t", false⟩, ⟨"why doesnt", false⟩,
   ⟨"why isn" ++ aposS ++ "t", false⟩, ⟨"why isnt", false⟩,
   ⟨"why won" ++ aposS ++ "t", false⟩, ⟨"why wont", false⟩,
   ⟨"why can" ++ aposS ++ "t", false⟩, ⟨"why cant", false⟩]

/-- `_THEME_KEYWORDS` from `user_profile.py`, in dict insertion order. -/
def THEME_KEYWORDS : List (String × List String) :=
  [("coding", ["code", "python", "javascript", "bug", "git", "commit", "deploy",
               "debug", "function", "loop", "error", "exception", "stack", "api",
               "sql", "framework"]),
   ("career", ["job", "interview", "resume", "cv", "salary", "promotion",
               "manager", "startup", "intern", "hire", "fired"]),
   ("relationships", ["girlfriend", "boyfriend", "date", "dating", "crush",
                      "friend", "family", "mom", "dad", "ex"]),
   ("fitness", ["gym", "workout", "diet", "weight", "run", "exercise", "fat",
                "muscle", "protein"]),
   ("gaming", ["game", "gamer", "play", "level", "rank", "noob", "pvp", "fps",
               "rpg", "stream"]),
   ("ai_ml", ["ai", "ml", "model", "neural", "gpt", "llm", "dataset", "train",
              "loss", "accuracy", "embedding"]),
   ("college", ["college", "university", "degree", "exam", "assignment",
                "professor", "student", "gpa", "lecture"])]

/-- `_EMOTION_WORDS` from `user_profile.py` (a set; only membership is used). -/
def EMOTION_WORDS : List String :=
  ["hate", "love", "scared", "proud", "angry", "excited", "sad", "happy",
   "frustrated", "confused", "lost", "embarrassed", "awesome", "terrible",
   "horrible", "amazing", "disgusting", "jealous"]

/-- `_TRAIT_SIGNALS` from `user_profile.py`, in dict insertion order. -/
def TRAIT_SIGNALS : List (String × List String) :=
  [("overconfident", ["obviously", "trust me", "i know best", "clearly",
                      "of course i", "no one can"]),
   ("self_deprecating", ["lol i", "haha i suck", "i know i" ++ aposS ++ "m bad",
                         "don" ++ aposS ++ "t roast me", "i" ++ aposS ++ "m the worst"]),
   ("curious", ["how does", "why does", "can you explain", "what is",
                "what are", "how do i"]),
   ("defensive", ["that" ++ aposS ++ "s not fair", "actually i",
                  "you" ++ aposS ++ "re wrong", "not true", "stop roasting"])]

/-! ## User profile and importance scorer (utils/user_profile.py)

Python's `Counter` preserves the insertion order of first occurrences; it is
modelled as an ordered association list with a default of 0. -/

/-- Per-session user profile (`@dataclass UserProfile`). -/
structure UserProfile where
  skills : List String
  weaknesses : List String
  themes : List (String × Nat)
  traits : List (String × Nat)
  turn_count : Nat
deriving Repr, DecidableEq

/-- The freshly constructed profile (all dataclass defaults). -/
def UserProfile.init : UserProfile := ⟨[], [], [], [], 0⟩

/-- `Counter` lookup with default 0. -/
def counterGet (c : List (String × Nat)) (k : String) : Nat :=
  match c.find? (fun p => p.1 = k) with
  | some p => p.2
  | none => 0

/-- `Counter` increment `c[k] += n`: update in place, or append a new key
at the end (insertion order). -/
def counterAdd (c : List (String × Nat)) (k : String) (n : Nat) : List (String × Nat) :=
  if c.any (fun p => p.1 = k) then
    c.map (fun p => if p.1 = k then (p.1, p.2 + n) else p)
  else c ++ [(k, n)]

/-- The snippet recorded for a disclosure: `user_msg[:60].strip()`. -/
def snippetOf (user_msg : String) : String := pyStrip (takeChars 60 user_msg)

/-- The skills/weaknesses `for hit in hits:` loop of `UserProfile.update`:
per hit, record the snippet if it is not already present and add 3 to the
score.  The loop body ignores the matched text itself, so only the number
of hits matters. -/
def disclosureLoop (snippet : String) : Nat → List String → Int → List String × Int
  | 0, recorded, score => (recorded, score)
  | n + 1, recorded, score =>
    let recorded' := if snippet ∈ recorded then recorded else recorded ++ [snippet]
    disclosureLoop snippet n recorded' (score + 3)

/-- The themes loop of `UserProfile.update`: for each theme category whose
keywords intersect the word set, bump the theme counter by the number of
distinct matched keywords, add 1 to the score, and add 1 more when the
updated counter exceeds 3. -/
def themeLoop (words : List String) :
    List (String × List String) → List (String × Nat) → Int → List (String × Nat) × Int
  | [], themes, score => (themes, score)
  | (theme, keywords) :: rest, themes, score =>
    let n := (keywords.filter (fun k => k ∈ words)).length
    if n ≠ 0 then
      let themes' := counterAdd themes theme n
      let newCount := counterGet themes' theme
      let score' := score + 1
      let score'' := if newCount > 3 then score' + 1 else score'
      themeLoop words rest themes' score''
    else
      themeLoop words rest themes score

/-- The trait-inference loop of `UserProfile.update`: for each trait whose
first matching signal phrase occurs as a substring of the lowercased text,
bump the trait counter once and add 1 to the score (`break` after the first
matching signal makes one increment per trait). -/
def traitLoop (msg_lower : String) :
    List (String × List String) → List (String × Nat) → Int → List (String × Nat) × Int
  | [], traits, score => (traits, score)
  | (trait, signals) :: rest, traits, score =>
    if signals.any (fun sig => hasSub sig.toList msg_lower.toList) then
      traitLoop msg_lower rest (counterAdd traits trait 1) (score + 1)
    else
      traitLoop msg_lower rest traits score

/-- `UserProfile.update` from `user_profile.py`: bump `turn_count`, run the
eight scoring steps in source order, and return the capped importance score
together with the mutated profile. -/
def UserProfile.update (p : UserProfile) (user_msg : String) (bot_reply : String := "") :
    Int × UserProfile :=
  let turn_count := p.turn_count + 1
  let msg_lower := lowerStr user_msg
  let snippet := snippetOf user_msg
  -- 1. skills
  let r1 := disclosureLoop snippet (countMatches SKILL_ALTS msg_lower) p.skills 0
  -- 2. weaknesses
  let r2 := disclosureLoop snippet (countMatches WEAK_ALTS msg_lower) p.weaknesses r1.2
  -- 3. themes
  let words := wordsOf msg_lower
  let r3 := themeLoop words THEME_KEYWORDS p.themes r2.2
  -- 4. emotional language
  let s4 := if EMOTION_WORDS.any (fun w => w ∈ words) then r3.2 + 2 else r3.2
  -- 5. trait inference
  let r5 := traitLoop msg_lower TRAIT_SIGNALS p.traits s4
  -- 6. question asking
  let s6 := if '?' ∈ user_msg.toList then r5.2 + 1 else r5.2
  -- 7. penalise very short messages
  let s7 := if (splitWs user_msg).length < 4 then max 0 (s6 - 1) else s6
  -- 8. bot-engagement bonus
  let s8 :=
    if bot_reply ≠ "" ∧ (splitWs bot_reply).length > 5 then min 10 (s7 + 1) else s7
  (min s8 10,
   { skills := r1.1, weaknesses := r2.1, themes := r3.1, traits := r5.1,
     turn_count := turn_count })

/-- Replay a sequence of `update` calls, each a `(user_msg, bot_reply)`
pair, against a profile. -/
def applyUpdates : UserProfile → List (String × String) → UserProfile
  | p, [] => p
  | p, (m, r) :: rest => applyUpdates (p.update m r).2 rest

/-! ## Retrieval engine (rag.py)

`rag.py` contains two complete modules concatenated: the first defines a
guarded `retrieve_context` (lines 151-182, full `try/except` with a fallback
sentinel); the second (lines 183-252) redefines `load_and_chunk` and
`retrieve_context`, so at module load the later definitions shadow the
earlier ones and the second `retrieve_context` is the one callers get.

The external collaborators (sentence-transformers model, FAISS index) are
abstracted into an environment: whether each fallible step succeeds and
which neighbour indices the FAISS search returns.  FAISS `IndexFlatL2.search`
pads missing neighbours with index `-1`, hence `Int` indices. -/

/-- The fallback sentinel returned by the first `retrieve_context`. -/
def FALLBACK_SENTINEL : String :=
  "No roast context available. I" ++ aposS ++ "ll roast from pure instinct."

/-- Environment of the first (shadowed) `retrieve_context` definition. -/
structure RagEnvV1 where
  chunks : List String
  indexNtotal : Option Nat
  modelAvailable : Bool
  encodeOk : Bool
  searchIdxs : List Int

/-- Body of the first `retrieve_context` (rag.py lines 162-178): everything
inside the `try:` block; exceptions are modelled as `Except.error`.  The
`query` and `top_k` arguments influence the run only through the
environment (the query embedding and the search results). -/
def retrieve_context_v1_body (env : RagEnvV1) (_query : String) (_top_k : Nat) :
    Except String String :=
  if env.chunks.isEmpty ∨ env.indexNtotal = none ∨ env.indexNtotal = some 0 then
    Except.ok FALLBACK_SENTINEL
  else if ¬ env.modelAvailable then
    Except.error "AttributeError: NoneType object has no attribute encode"
  else if ¬ env.encodeOk then
    Except.error "embedding failure"
  else
    let results := (env.searchIdxs.filter
        (fun i => i < (env.chunks.length : Int) ∧ 0 ≤ i)).filterMap
      (fun i => env.chunks.get? i.toNat)
    if results.isEmpty then Except.ok "No roast context found."
    else Except.ok (joinSep "\n\n" results)

/-- The first `retrieve_context` definition (rag.py lines 151-182): the
`except` clause maps every failure to the fallback sentinel. -/
def retrieve_context_v1 (env : RagEnvV1) (query : String) (top_k : Nat) : String :=
  match retrieve_context_v1_body env query top_k with
  | Except.ok s => s
  | Except.error _ => FALLBACK_SENTINEL

/-- Environment of the second (effective) `retrieve_context` definition. -/
structure RagEnvV2 where
  initOk : Bool
  chunksRaw : List String
  encodeOk : Bool
  searchIdxs : List Int

/-- Python list indexing with possibly negative indices; out-of-range
raises `IndexError`. -/
def pyIndexE (chunks : List String) (i : Int) : Except String String :=
  match (if 0 ≤ i then chunks.get? i.toNat
         else if 0 ≤ (chunks.length : Int) + i then chunks.get? ((chunks.length : Int) + i).toNat
         else none) with
  | some c => Except.ok c
  | none => Except.error "IndexError: list index out of range"

/-- The second, effective `retrieve_context` definition (rag.py lines
243-252).  It installs no exception handler: a failing model
initialization (`_initialize_rag_components`) or query encoding
propagates to the caller.  `load_and_chunk` substitutes the placeholder
`["No data"]` for an empty chunk list, and the result comprehension
filters only `i < len(chunks)`, letting FAISS's `-1` padding through as
Python negative indexing. -/
def retrieve_context (env : RagEnvV2) (_query : String) (_top_k : Nat) :
    Except String String :=
  if ¬ env.initOk then
    Except.error "SentenceTransformer initialization failed"
  else if ¬ env.encodeOk then
    Except.error "embedding failure"
  else
    let chunks := if env.chunksRaw.isEmpty then ["No data"] else env.chunksRaw
    let selected := env.searchIdxs.filter (fun i => i < (chunks.length : Int))
    match selected.mapM (pyIndexE chunks) with
    | Except.error e => Except.error e
    | Except.ok results => Except.ok (joinSep "\n\n" results)

/-! ## Chat-turn handlers (app.py) -/

/-- The canned reply for empty/whitespace-only input (`_validate_input`). -/
def EMPTY_MSG : String :=
  "You sent me nothing? Even your messages are empty, just like your GitHub contribution graph. 🔥"

/-- The canned reply for over-long input (`_validate_input`). -/
def LIMIT_MSG : String :=
  "Wow, you broke the character limit. That" ++ aposS ++
  "s impressive. 🔥 Please send a shorter message."

/-- `_validate_input` from `app.py`: returns `(cleaned_input,
error_message_or_none)`.  The `isinstance` check always passes for the
strings modelled here; note the length check runs on the stripped input. -/
def _validate_input (user_input : String) : Option String × Option String :=
  if user_input = "" then (none, some EMPTY_MSG)
  else
    let s := pyStrip user_input
    if s = "" then (none, some EMPTY_MSG)
    else if s.length > 5000 then (none, some LIMIT_MSG)
    else (some s, none)

/-- `build_adaptive_prompt` from `utils/roast_mode.py`. -/
def build_adaptive_prompt (base_system_prompt profile_snippet : String) : String :=
  if profile_snippet = "" ∨ pyStrip profile_snippet = "" then base_system_prompt
  else
    base_system_prompt ++ "\n\n--- ADAPTIVE CONTEXT ---\n" ++ profile_snippet ++
      "\n--- END CONTEXT ---\n"

/-- Python `list(dict.fromkeys(l))`: deduplicate keeping first occurrences. -/
def dedupKeepFirst (l : List String) : List String :=
  l.foldl (fun acc s => if s ∈ acc then acc else acc ++ [s]) []

/-- Python `l[-n:]`: the last `n` elements. -/
def lastN (n : Nat) (l : List String) : List String := l.drop (l.length - n)

/-- Insert into a count-descending list after all entries with a count at
least as large (keeps first-encounter order among equal counts). -/
def insertByCount (p : String × Nat) : List (String × Nat) → List (String × Nat)
  | [] => [p]
  | q :: rest => if q.2 < p.2 then p :: q :: rest else q :: insertByCount p rest

/-- `Counter.most_common(n)`: keys of the `n` largest counts, ties in
first-encounter order (stable descending sort). -/
def mostCommon (c : List (String × Nat)) (n : Nat) : List String :=
  ((c.foldl (fun acc p => insertByCount p acc) []).take n).map (fun p => p.1)

/-- `UserProfile.to_prompt_snippet` from `user_profile.py`. -/
def UserProfile.to_prompt_snippet (p : UserProfile) : String :=
  if p.turn_count < 2 then ""
  else
    let parts : List String :=
      (if ¬ p.skills.isEmpty then
        ["Claims to be good at: " ++ joinSep "; " (lastN 3 (dedupKeepFirst p.skills))]
       else []) ++
      (if ¬ p.weaknesses.isEmpty then
        ["Has revealed weaknesses / slip-ups: " ++
          joinSep "; " (lastN 3 (dedupKeepFirst p.weaknesses))]
       else []) ++
      (if ¬ p.themes.isEmpty then
        ["Recurring topics: " ++ joinSep ", " (mostCommon p.themes 3)]
       else []) ++
      (if ¬ p.traits.isEmpty then
        ["Personality signals: " ++ joinSep ", " (mostCommon p.traits 2)]
       else [])
    if parts.isEmpty then ""
    else
      "\n\n[USER PROFILE — use this to craft personalised roasts]\n" ++
        joinSep "\n" (parts.map (fun s => "• " ++ s)) ++ "\n[/USER PROFILE]\n"

/-- External collaborators of one chat turn: the retrieval environment,
the tokenizer used by the trimmer, and the completion endpoint's behaviour
(its non-streaming outcome, and for streaming the delta contents received
before the stream either ends or fails). -/
structure ChatEnv where
  rag : RagEnvV2
  encode : String → Nat
  completionResult : Except String String
  streamDeltas : List String
  streamFails : Bool
  streamError : String

/-- The truncated apology produced by the `except` clauses of `chat` and
`chat_stream`: fixed prefix plus `str(e)[:100]`. -/
def apology (e : String) : String :=
  "Even I broke trying to roast you. Error: " ++ takeChars 100 e

/-- The persistence calls in `app.py` (lines 148 and 173) invoke
`add_to_memory(user_input, reply, session_id=..., importance=...)`, but
`memory.add_to_memory` accepts only `(user_msg, bot_msg, importance)`;
the call therefore raises `TypeError` before touching the store. -/
def PERSIST_TYPE_ERROR : String :=
  "TypeError: add_to_memory() got an unexpected keyword argument " ++
    aposS ++ "session_id" ++ aposS

/-- `_build_llm_messages` from `app.py`: run the adaptive pipeline and
return the assembled message list (or the exception escaping from
retrieval/trimming) together with the importance score and the profile,
which is mutated before any fallible step. -/
def _build_llm_messages (env : ChatEnv) (profile : UserProfile)
    (mem : List ScoredMessage) (user_input base_system_prompt : String) :
    Except String (List Message) × Int × UserProfile :=
  let r := profile.update user_input ""
  let importance := r.1
  let profile' := r.2
  let profile_snippet := profile'.to_prompt_snippet
  let system_prompt := build_adaptive_prompt base_system_prompt profile_snippet
  let msgs : Except String (List Message) :=
    match retrieve_context env.rag user_input 3 with
    | Except.error e => Except.error e
    | Except.ok context =>
      match trim_chat_history env.encode 3000 mem with
      | Except.error e => Except.error e
      | Except.ok trimmed =>
        Except.ok (⟨"system", system_prompt⟩ :: trimmed ++
          [⟨"user", "Roast context:\n" ++ context ++ "\n\nCurrent message:\n" ++ user_input⟩])
  (msgs, importance, profile')

/-- Result of one non-streaming `chat` turn: the reply, the post-turn
session state, and whether the completion endpoint was invoked. -/
structure ChatResult where
  reply : String
  profile : UserProfile
  memory : List ScoredMessage
  endpointCalled : Bool
deriving Repr

/-- `chat` from `app.py` (non-streaming turn handler).

The final persistence step (`add_to_memory(..., session_id=...)`) raises
`TypeError` — see `PERSIST_TYPE_ERROR` — so the success branch also lands
in the `except` clause after the completion returned, and the memory store
is never modified by this handler. -/
def chat (env : ChatEnv) (profile : UserProfile) (mem : List ScoredMessage)
    (user_input base_system_prompt : String) : ChatResult :=
  match _validate_input user_input with
  | (_, some err) => ⟨err, profile, mem, false⟩
  | (cleanedOpt, none) =>
    let cleaned := cleanedOpt.getD ""
    let b := _build_llm_messages env profile mem cleaned base_system_prompt
    match b.1 with
    | Except.error e => ⟨apology e, b.2.2, mem, false⟩
    | Except.ok _msgs =>
      match env.completionResult with
      | Except.error e => ⟨apology e, b.2.2, mem, true⟩
      | Except.ok _reply => ⟨apology PERSIST_TYPE_ERROR, b.2.2, mem, true⟩

/-- Result of one streaming `chat_stream` turn: the yielded fragments in
order, the post-turn session state, and whether the endpoint was invoked. -/
structure StreamResult where
  yields : List String
  profile : UserProfile
  memory : List ScoredMessage
  endpointCalled : Bool
deriving Repr

/-- `chat_stream` from `app.py` (streaming turn handler): yield the
non-empty deltas as they arrive; persistence runs only after the stream
completes and the assembled reply is non-empty (and then raises the
`TypeError` of `PERSIST_TYPE_ERROR`, which the `except` turns into one
final apology fragment).  When the stream fails, control jumps to the
`except` clause, skipping persistence entirely. -/
def chat_stream (env : ChatEnv) (profile : UserProfile) (mem : List ScoredMessage)
    (user_input base_system_prompt : String) : StreamResult :=
  match _validate_input user_input with
  | (_, some err) => ⟨[err], profile, mem, false⟩
  | (cleanedOpt, none) =>
    let cleaned := cleanedOpt.getD ""
    let b := _build_llm_messages env profile mem cleaned base_system_prompt
    match b.1 with
    | Except.error e => ⟨[apology e], b.2.2, mem, false⟩
    | Except.ok _msgs =>
      let reply_parts := env.streamDeltas.filter (fun d => d ≠ "")
      if env.streamFails then
        ⟨reply_parts ++ [apology env.streamError], b.2.2, mem, true⟩
      else
        let reply := joinSep "" reply_parts
        if reply ≠ "" then
          ⟨reply_parts ++ [apology PERSIST_TYPE_ERROR], b.2.2, mem, true⟩
        else
          ⟨reply_parts, b.2.2, mem, true⟩

/-! ## Lemmas about the memory store -/

theorem pairsToStore_append (ps : List (String × String × Int)) (u b : String) (i : Int) :
    pairsToStore (ps ++ [(u, b, i)]) =
      pairsToStore ps ++ [⟨"user", u, i⟩, ⟨"assistant", b, i⟩] := by
  induction ps with
  | nil => rfl
  | cons q rest ih =>
    obtain ⟨qu, qb, qi⟩ := q
    simp [pairsToStore, ih]

theorem pairsToStore_length (ps : List (String × String × Int)) :
    (pairsToStore ps).length = 2 * ps.length := by
  induction ps with
  | nil => rfl
  | cons q rest ih =>
    obtain ⟨qu, qb, qi⟩ := q
    simp [pairsToStore, ih]
    omega

theorem pairWF_pairsToStore (ps : List (String × String × Int)) :
    pairWF (pairsToStore ps) := by
  induction ps with
  | nil => trivial
  | cons q rest ih =>
    obtain ⟨qu, qb, qi⟩ := q
    exact ⟨rfl, rfl, rfl, ih⟩

theorem dequeAppend_lt {cap : Nat} {s : List ScoredMessage} (m : ScoredMessage)
    (h : s.length < cap) : dequeAppend cap s m = s ++ [m] := by
  unfold dequeAppend
  rw [if_neg (by omega)]

theorem dequeAppend_ge {cap : Nat} {s : List ScoredMessage} (m : ScoredMessage)
    (h : s.length ≥ cap) : dequeAppend cap s m = s.tail ++ [m] := by
  unfold dequeAppend
  rw [if_pos h]

theorem add_to_memory_shape (u b : String) (i : Int) (ps : List (String × String × Int))
    (h : ps.length ≤ 20) :
    ∃ qs, add_to_memory u b i (pairsToStore ps) = pairsToStore qs ∧ qs.length ≤ 20 := by
  by_cases h20 : ps.length = 20
  · obtain ⟨q, ps', rfl⟩ : ∃ q ps', ps = q :: ps' := by
      cases ps with
      | nil => simp at h20
      | cons q ps' => exact ⟨q, ps', rfl⟩
    obtain ⟨qu, qb, qi⟩ := q
    have hps' : ps'.length = 19 := by simpa using h20
    refine ⟨ps' ++ [(u, b, i)], ?_, by simp [hps']⟩
    have hcons : pairsToStore ((qu, qb, qi) :: ps') =
        ⟨"user", qu, qi⟩ :: ⟨"assistant", qb, qi⟩ :: pairsToStore ps' := rfl
    have hlen : (pairsToStore ps').length = 38 := by rw [pairsToStore_length]; omega
    have e1 : dequeAppend (MAX_MEMORY * 2) (pairsToStore ((qu, qb, qi) :: ps'))
        ⟨"user", u, i⟩ =
        ⟨"assistant", qb, qi⟩ :: (pairsToStore ps' ++ [⟨"user", u, i⟩]) := by
      rw [dequeAppend_ge _ (by rw [hcons]; simp [hlen, MAX_MEMORY]), hcons]
      simp
    have e2 : dequeAppend (MAX_MEMORY * 2)
        (⟨"assistant", qb, qi⟩ :: (pairsToStore ps' ++ [⟨"user", u, i⟩]))
        ⟨"assistant", b, i⟩ =
        pairsToStore ps' ++ [⟨"user", u, i⟩] ++ [⟨"assistant", b, i⟩] := by
      rw [dequeAppend_ge _ (by simp [hlen, MAX_MEMORY])]
      simp
    unfold add_to_memory
    rw [e1, e2, pairsToStore_append]
    simp
  · have hlt : ps.length < 20 := lt_of_le_of_ne h h20
    refine ⟨ps ++ [(u, b, i)], ?_, by simp; omega⟩
    have hlen : (pairsToStore ps).length = 2 * ps.length := pairsToStore_length ps
    have e1 : dequeAppend (MAX_MEMORY * 2) (pairsToStore ps) ⟨"user", u, i⟩ =
        pairsToStore ps ++ [⟨"user", u, i⟩] :=
      dequeAppend_lt _ (by rw [hlen]; simp [MAX_MEMORY]; omega)
    have e2 : dequeAppend (MAX_MEMORY * 2) (pairsToStore ps ++ [⟨"user", u, i⟩])
        ⟨"assistant", b, i⟩ =
        pairsToStore ps ++ [⟨"user", u, i⟩] ++ [⟨"assistant", b, i⟩] :=
      dequeAppend_lt _ (by simp [hlen, MAX_MEMORY]; omega)
    unfold add_to_memory
    rw [e1, e2, pairsToStore_append]
    simp

theorem applyAdds_shape (adds : List (String × String × Int)) :
    ∀ ps : List (String × String × Int), ps.length ≤ 20 →
      ∃ qs, applyAdds adds (pairsToStore ps) = pairsToStore qs ∧ qs.length ≤ 20 := by
  induction adds with
  | nil => exact fun ps h => ⟨ps, rfl, h⟩
  | cons a rest ih =>
    intro ps h
    obtain ⟨u, b, i⟩ := a
    obtain ⟨qs, hq, hlen⟩ := add_to_memory_shape u b i ps h
    obtain ⟨qs', hq', hlen'⟩ := ih qs hlen
    refine ⟨qs', ?_, hlen'⟩
    show applyAdds rest (add_to_memory u b i (pairsToStore ps)) = pairsToStore qs'
    rw [hq, hq']

/-- C10: after any sequence of `add_to_memory` calls on an initially empty
store, the store holds an even number of messages, at most 40, with roles
strictly alternating starting with `"user"` and each appended pair carrying
one common importance score — also once the capacity cap starts evicting
the oldest pair. -/
theorem C10_memory_invariant (adds : List (String × String × Int)) :
    pairWF (applyAdds adds []) ∧ Even (applyAdds adds []).length ∧
      (applyAdds adds []).length ≤ 40 := by
  obtain ⟨qs, hq, hlen⟩ := applyAdds_shape adds [] (by simp)
  have hq' : applyAdds adds [] = pairsToStore qs := hq
  rw [hq']
  refine ⟨pairWF_pairsToStore qs, ?_, ?_⟩
  · rw [pairsToStore_length]; exact even_two_mul _
  · rw [pairsToStore_length]; omega

/-! ## Lemmas about the token guard -/

theorem trimStep_ok {w w' : List ScoredMessage} (h : trimStep w = Except.ok w') :
    w'.Sublist w ∧ w.length - 1 ≤ w'.length := by
  simp only [trimStep] at h
  split at h
  · rw [Except.ok.injEq] at h
    subst h
    exact ⟨List.Sublist.refl _, by omega⟩
  · split at h
    · cases h
    · rw [Except.ok.injEq] at h
      subst h
      exact ⟨List.eraseIdx_sublist _ _, List.le_length_eraseIdx _ _⟩

theorem trimLoop_ok (encode : String → Nat) (maxTokens : Int) :
    ∀ (fuel : Nat) (w w' : List ScoredMessage),
      trimLoop encode maxTokens fuel w = Except.ok w' →
      w'.Sublist w ∧ min 2 w.length ≤ w'.length := by
  intro fuel
  induction fuel with
  | zero =>
    intro w w' h
    simp only [trimLoop] at h
    rw [Except.ok.injEq] at h
    subst h
    exact ⟨List.Sublist.refl _, Nat.min_le_right _ _⟩
  | succ n ih =>
    intro w w' h
    simp only [trimLoop] at h
    split at h
    · next hg =>
      have h2 : 2 < w.length := by simpa [MIN_MESSAGES] using hg.2
      split at h
      · cases h
      · next w2 hw2 =>
        obtain ⟨hsub2, hlen2⟩ := trimStep_ok hw2
        obtain ⟨hsub', hlen'⟩ := ih _ _ h
        have hw2w : w2.length ≤ w.length := hsub2.length_le
        refine ⟨hsub'.trans hsub2, ?_⟩
        omega
    · rw [Except.ok.injEq] at h
      subst h
      exact ⟨List.Sublist.refl _, Nat.min_le_right _ _⟩

theorem recencyLoop_shape (encode : String → Nat) (maxTokens : Int) :
    ∀ (fuel : Nat) (w : List ScoredMessage),
      (recencyLoop encode maxTokens fuel w).Sublist w ∧
      min 2 w.length ≤ (recencyLoop encode maxTokens fuel w).length := by
  intro fuel
  induction fuel with
  | zero => exact fun w => ⟨List.Sublist.refl _, Nat.min_le_right _ _⟩
  | succ n ih =>
    intro w
    simp only [recencyLoop]
    split
    · next hg =>
      have h2 : 2 < w.length := by simpa [MIN_MESSAGES] using hg.2
      obtain ⟨hs, hl⟩ := ih w.tail
      refine ⟨hs.trans (List.tail_sublist w), ?_⟩
      have ht : w.tail.length = w.length - 1 := List.length_tail w
      omega
    · exact ⟨List.Sublist.refl _, Nat.min_le_right _ _⟩

/-- C3: whenever `trim_chat_history` returns a list, that list is an
order-preserving subsequence of the input (so it never exceeds the original
message count), and it is never shorter than the floor of 2 messages when
the input had at least 2 — even when the survivors are still over budget. -/
theorem C3_trim_subsequence_floor (encode : String → Nat) (maxTokens : Int)
    (chat_history : List ScoredMessage) (res : List Message)
    (h : trim_chat_history encode maxTokens chat_history = Except.ok res) :
    res.Sublist (chat_history.map ScoredMessage.to_dict) ∧
    res.length ≤ chat_history.length ∧
    min 2 chat_history.length ≤ res.length := by
  simp only [trim_chat_history] at h
  split at h
  · next he =>
    rw [Except.ok.injEq] at h
    subst h
    have : chat_history = [] := by simpa using he
    subst this
    simp
  · next he =>
    split at h
    · rw [Except.ok.injEq] at h
      subst h
      exact ⟨List.Sublist.refl _, by simp, by simp⟩
    · split at h
      · cases h
      · next w1 hw1 =>
        rw [Except.ok.injEq] at h
        subst h
        obtain ⟨hs1, hl1⟩ := trimLoop_ok encode maxTokens _ _ _ hw1
        obtain ⟨hs2, hl2⟩ := recencyLoop_shape encode maxTokens w1.length w1
        have hlw1 : w1.length ≤ chat_history.length := hs1.length_le
        have hlw2 : (recencyLoop encode maxTokens w1.length w1).length ≤ w1.length :=
          hs2.length_le
        refine ⟨(hs2.trans hs1).map ScoredMessage.to_dict, ?_, ?_⟩
        · simp only [List.length_map]
          omega
        · simp only [List.length_map]
          omega

/-- Witness for C3: a one-message history within budget is returned whole. -/
theorem C3_witness :
    ([⟨"user", "hi"⟩] : List Message).Sublist
      (([⟨"user", "hi", 1⟩] : List ScoredMessage).map ScoredMessage.to_dict) ∧
    ([⟨"user", "hi"⟩] : List Message).length ≤
      ([⟨"user", "hi", 1⟩] : List ScoredMessage).length ∧
    min 2 ([⟨"user", "hi", 1⟩] : List ScoredMessage).length ≤
      ([⟨"user", "hi"⟩] : List Message).length :=
  C3_trim_subsequence_floor (fun s => s.length) 1000 [⟨"user", "hi", 1⟩]
    [⟨"user", "hi"⟩] rfl

/-- C1 (evaluation of the code at the failing input): on the history with
importances `[5, 1, 1, 5]` and roles user/assistant/user/assistant, any
budget that forces trimming makes the lowest-importance candidate sit right
before the protected tail, and `trim_chat_history` raises `AttributeError`
instead of returning a list containing the final two messages. -/
theorem C1_trim_crashes_on_protected_adjacent :
    trim_chat_history (fun s => s.length) 0
      [⟨"user", "aa", 5⟩, ⟨"assistant", "bb", 1⟩,
       ⟨"user", "cc", 1⟩, ⟨"assistant", "dd", 5⟩] =
    Except.error "AttributeError: ScoredMessage object has no attribute get" := by
  rfl

/-- C2 (evaluation of the code at the failing input): with importances
`[1, 1, 5, 5]` and a budget met as soon as the first message is gone, the
code removes only the lowest-importance message — its complementary
non-protected successor (the importance-1 assistant reply) stays in the
returned list, although the claim says it is removed in the same step.
The second conjunct shows the claim's scenario sentence holding: on the
`[1, 1, 10, 10, 2, 2, 5, 5]` store with a budget smaller than the full
set, the two importance-1 entries are removed before any importance-2 or
importance-5 entry. -/
theorem C2_successor_not_removed :
    trim_chat_history (fun s => s.length) 6
      [⟨"user", "aaaaaaaaaa", 1⟩, ⟨"assistant", "b", 1⟩,
       ⟨"user", "c", 5⟩, ⟨"assistant", "d", 5⟩] =
    Except.ok [⟨"assistant", "b"⟩, ⟨"user", "c"⟩, ⟨"assistant", "d"⟩] ∧
    trim_chat_history (fun s => s.length) 80
      [⟨"user", "msg1", 1⟩, ⟨"assistant", "resp1", 1⟩,
       ⟨"user", "msg2 - super important breakage", 10⟩, ⟨"assistant", "resp2", 10⟩,
       ⟨"user", "msg3", 2⟩, ⟨"assistant", "resp3", 2⟩,
       ⟨"user", "msg4 - latest", 5⟩, ⟨"assistant", "resp4 - latest", 5⟩] =
    Except.ok [⟨"user", "msg2 - super important breakage"⟩, ⟨"assistant", "resp2"⟩,
       ⟨"user", "msg3"⟩, ⟨"assistant", "resp3"⟩,
       ⟨"user", "msg4 - latest"⟩, ⟨"assistant", "resp4 - latest"⟩] :=
  ⟨rfl, rfl⟩

/-! ## Lemmas about the importance scorer -/

theorem disclosureLoop_score (snippet : String) :
    ∀ (n : Nat) (l : List String) (sc : Int),
      (disclosureLoop snippet n l sc).2 = sc + 3 * n := by
  intro n
  induction n with
  | zero => intro l sc; simp [disclosureLoop]
  | succ m ih =>
    intro l sc
    simp only [disclosureLoop]
    rw [ih]
    push_cast
    ring

theorem disclosureLoop_mem (snippet : String) :
    ∀ (n : Nat) (l : List String) (sc : Int), snippet ∈ l →
      (disclosureLoop snippet n l sc).1 = l := by
  intro n
  induction n with
  | zero => intro l sc _; rfl
  | succ m ih =>
    intro l sc hmem
    simp only [disclosureLoop]
    rw [if_pos hmem]
    exact ih l _ hmem

theorem disclosureLoop_recorded (snippet : String) (n : Nat) (l : List String) (sc : Int) :
    (disclosureLoop snippet n l sc).1 =
      if n ≠ 0 ∧ snippet ∉ l then l ++ [snippet] else l := by
  cases n with
  | zero => simp [disclosureLoop]
  | succ m =>
    simp only [disclosureLoop]
    by_cases hmem : snippet ∈ l
    · rw [if_pos hmem, disclosureLoop_mem snippet m l _ hmem]
      simp [hmem]
    · rw [if_neg hmem, disclosureLoop_mem snippet m (l ++ [snippet]) _ (by simp)]
      simp [hmem]

theorem themeLoop_score_le (words : List String) :
    ∀ (cats : List (String × List String)) (th : List (String × Nat)) (sc : Int),
      sc ≤ (themeLoop words cats th sc).2 := by
  intro cats
  induction cats with
  | nil => intro th sc; simp [themeLoop]
  | cons c rest ih =>
    intro th sc
    obtain ⟨theme, keywords⟩ := c
    simp only [themeLoop]
    split
    · refine le_trans ?_ (ih _ _)
      split <;> omega
    · exact ih _ _

theorem traitLoop_score_le (msg_lower : String) :
    ∀ (cats : List (String × List String)) (tr : List (String × Nat)) (sc : Int),
      sc ≤ (traitLoop msg_lower cats tr sc).2 := by
  intro cats
  induction cats with
  | nil => intro tr sc; simp [traitLoop]
  | cons c rest ih =>
    intro tr sc
    obtain ⟨trait, signals⟩ := c
    simp only [traitLoop]
    split
    · exact le_trans (by omega) (ih _ _)
    · exact ih _ _

/-- C6: for every profile state, user message and bot reply (including the
empty string), the importance score returned by `UserProfile.update` lies
in the closed interval `[0, 10]`. -/
theorem C6_update_score_range (p : UserProfile) (user_msg bot_reply : String) :
    0 ≤ (p.update user_msg bot_reply).1 ∧ (p.update user_msg bot_reply).1 ≤ 10 := by
  simp only [UserProfile.update]
  set a1 := (disclosureLoop (snippetOf user_msg)
    (countMatches SKILL_ALTS (lowerStr user_msg)) p.skills 0).2 with ha1
  set a2 := (disclosureLoop (snippetOf user_msg)
    (countMatches WEAK_ALTS (lowerStr user_msg)) p.weaknesses a1).2 with ha2
  set a3 := (themeLoop (wordsOf (lowerStr user_msg)) THEME_KEYWORDS p.themes a2).2 with ha3
  set b5 := (traitLoop (lowerStr user_msg) TRAIT_SIGNALS p.traits
    (if EMOTION_WORDS.any (fun w => w ∈ wordsOf (lowerStr user_msg))
     then a3 + 2 else a3)).2 with hb5
  have h1 : 0 ≤ a1 := by
    rw [ha1, disclosureLoop_score]
    positivity
  have h2 : a1 ≤ a2 := by
    rw [ha2, disclosureLoop_score]
    have : (0 : Int) ≤ 3 * countMatches WEAK_ALTS (lowerStr user_msg) := by positivity
    omega
  have h3 : a2 ≤ a3 := ha3 ▸ themeLoop_score_le _ _ _ _
  have h5 : (if EMOTION_WORDS.any (fun w => w ∈ wordsOf (lowerStr user_msg))
      then a3 + 2 else a3) ≤ b5 := hb5 ▸ traitLoop_score_le _ _ _ _
  split_ifs at h5 ⊢ <;> constructor <;> omega

/-- C7: each `UserProfile.update` call increases `turn_count` by exactly 1;
replaying any sequence of calls adds exactly the sequence length, so
`turn_count` is monotone non-decreasing across any sequence of calls. -/
theorem C7_turn_count_increments :
    (∀ (p : UserProfile) (m r : String),
        (p.update m r).2.turn_count = p.turn_count + 1) ∧
    (∀ (p : UserProfile) (l : List (String × String)),
        (applyUpdates p l).turn_count = p.turn_count + l.length) ∧
    (∀ (p : UserProfile) (l : List (String × String)),
        p.turn_count ≤ (applyUpdates p l).turn_count) := by
  have h1 : ∀ (p : UserProfile) (m r : String),
      (p.update m r).2.turn_count = p.turn_count + 1 := fun p m r => rfl
  have h2 : ∀ (l : List (String × String)) (p : UserProfile),
      (applyUpdates p l).turn_count = p.turn_count + l.length := by
    intro l
    induction l with
    | nil => intro p; simp [applyUpdates]
    | cons a rest ih =>
      intro p
      obtain ⟨m, r⟩ := a
      simp only [applyUpdates]
      rw [ih, h1]
      simp
      omega
  exact ⟨h1, fun p l => h2 l p, fun p l => by rw [h2]; omega⟩

theorem update_skills_eq (p : UserProfile) (m r : String) :
    (p.update m r).2.skills =
      (disclosureLoop (snippetOf m) (countMatches SKILL_ALTS (lowerStr m)) p.skills 0).1 :=
  rfl

/-- C8 (amended): the skills pass of `update` adds 3 points per
self-disclosure match occurrence (so exactly 3 only when the pattern
matches exactly once), and records the first-60-character snippet into
`skills` only when that exact snippet is not already present; repeated
identical `update("I am a Python developer")` calls bump `turn_count` each
time but leave a single copy of the snippet in `skills`. -/
theorem C8_three_per_match_and_dedup :
    (∀ (sn : String) (n : Nat) (l : List String) (sc : Int),
        (disclosureLoop sn n l sc).2 = sc + 3 * n) ∧
    (∀ (p : UserProfile) (m r : String),
        (p.update m r).2.skills =
          if countMatches SKILL_ALTS (lowerStr m) ≠ 0 ∧ snippetOf m ∉ p.skills
          then p.skills ++ [snippetOf m] else p.skills) ∧
    ((UserProfile.init.update "I am a Python developer" "").2.turn_count = 1 ∧
      ((UserProfile.init.update "I am a Python developer" "").2.update
          "I am a Python developer" "").2.turn_count = 2 ∧
      (UserProfile.init.update "I am a Python developer" "").2.skills =
        ["I am a Python developer"] ∧
      ((UserProfile.init.update "I am a Python developer" "").2.update
          "I am a Python developer" "").2.skills = ["I am a Python developer"]) := by
  refine ⟨fun sn n l sc => disclosureLoop_score sn n l sc, ?_, ?_, ?_, ?_, ?_⟩
  · intro p m r
    rw [update_skills_eq, disclosureLoop_recorded]
  · rfl
  · rfl
  · decide
  · decide

/-- C8 (counterexample): on `"i am tall my job is great"` the
self-disclosure regex matches twice (`i am` and `my job`), the skills pass
adds 6 points — not exactly 3 — and the whole update returns 7 (6 plus the
career-theme point), where the claim's "+3 when matched" would give 4. -/
theorem C8_counterexample :
    countMatches SKILL_ALTS (lowerStr "i am tall my job is great") = 2 ∧
    (disclosureLoop (snippetOf "i am tall my job is great")
      (countMatches SKILL_ALTS (lowerStr "i am tall my job is great")) [] 0).2 = 6 ∧
    (UserProfile.init.update "i am tall my job is great" "").1 = 7 :=
  ⟨by decide, by decide, by decide⟩

/-! ## Retrieval and chat-turn theorems -/

/-- C4 (evaluation of the code at the failing input): the effective
`retrieve_context` (the second definition, which shadows the guarded
first) propagates an embedding-model initialization failure to its caller
instead of returning the fallback sentinel, and on an empty corpus it
returns text assembled from the `"No data"` placeholder chunk (repeated
through FAISS's `-1` padding), not the sentinel.  The shadowed first
definition does return the sentinel for an empty corpus, whatever the
state of the other components. -/
theorem C4_retrieval_propagates_failures :
    retrieve_context ⟨false, ["some chunk"], true, [0]⟩ "test" 3 =
      Except.error "SentenceTransformer initialization failed" ∧
    retrieve_context ⟨true, [], true, [0, -1, -1]⟩ "test" 3 =
      Except.ok "No data\n\nNo data\n\nNo data" ∧
    (∀ (nt : Option Nat) (ma eo : Bool) (si : List Int) (q : String) (k : Nat),
        retrieve_context_v1 ⟨[], nt, ma, eo, si⟩ q k = FALLBACK_SENTINEL) := by
  refine ⟨rfl, rfl, ?_⟩
  intro nt ma eo si q k
  rfl

theorem validate_empty {input : String} (h : pyStrip input = "") :
    _validate_input input = (none, some EMPTY_MSG) := by
  unfold _validate_input
  split
  · rfl
  · simp [h]

theorem validate_long {input : String} (h : 5000 < (pyStrip input).length) :
    _validate_input input = (none, some LIMIT_MSG) := by
  have hne : pyStrip input ≠ "" := by
    intro hs
    rw [hs] at h
    exact absurd h (by decide)
  unfold _validate_input
  split
  · next heq =>
    subst heq
    exact absurd h (by decide)
  · simp only [if_neg hne]
    rw [if_pos h]

theorem chat_rejects {env : ChatEnv} {p : UserProfile} {mem : List ScoredMessage}
    {input base MSG : String} (h : _validate_input input = (none, some MSG)) :
    chat env p mem input base = ⟨MSG, p, mem, false⟩ := by
  simp only [chat, h]

theorem chat_stream_rejects {env : ChatEnv} {p : UserProfile} {mem : List ScoredMessage}
    {input base MSG : String} (h : _validate_input input = (none, some MSG)) :
    chat_stream env p mem input base = ⟨[MSG], p, mem, false⟩ := by
  simp only [chat_stream, h]

/-- C5 (counterexample): a stream that fails after producing the fragment
`"Partial roast"` leaves the memory store unchanged — the partial reply
assembled so far is not persisted to memory, contradicting the claim. -/
theorem C5_counterexample :
    (chat_stream ⟨⟨true, ["chunk one"], true, [0]⟩, fun s => s.length,
        Except.ok "full reply", ["Partial roast"], true, "connection reset"⟩
      UserProfile.init [] "hello there my friend" "base prompt").yields =
      ["Partial roast", apology "connection reset"] ∧
    (chat_stream ⟨⟨true, ["chunk one"], true, [0]⟩, fun s => s.length,
        Except.ok "full reply", ["Partial roast"], true, "connection reset"⟩
      UserProfile.init [] "hello there my friend" "base prompt").memory = [] :=
  ⟨rfl, rfl⟩

/-- C5 (amended): when the completion call fails outright on the
non-streaming path the turn is not persisted; on the streaming path a
failing stream — even one that already produced fragments — persists
nothing either, and a stream that produced no fragments is never
persisted: in each case the memory store is exactly the input store. -/
theorem C5_failure_paths_do_not_persist (env : ChatEnv) (p : UserProfile)
    (mem : List ScoredMessage) (input base : String) :
    (∀ e, env.completionResult = Except.error e →
        (chat env p mem input base).memory = mem) ∧
    (env.streamFails = true → (chat_stream env p mem input base).memory = mem) ∧
    (env.streamDeltas.filter (fun d => d ≠ "") = [] →
        (chat_stream env p mem input base).memory = mem) := by
  have hchat : (chat env p mem input base).memory = mem := by
    simp only [chat]
    split
    · rfl
    · split
      · rfl
      · split <;> rfl
  have hstream : (chat_stream env p mem input base).memory = mem := by
    simp only [chat_stream]
    split
    · rfl
    · split
      · rfl
      · split
        · rfl
        · split <;> rfl
  exact ⟨fun _ _ => hchat, fun _ => hstream, fun _ => hstream⟩

/-- Witness for C5: concrete turns — a failed non-streaming completion, a
stream failing after one fragment, and a stream with no fragments — all
leave an empty store empty. -/
theorem C5_witness :
    (chat ⟨⟨true, ["c"], true, [0]⟩, fun s => s.length, Except.error "boom",
        [], false, ""⟩ UserProfile.init [] "hello there my friend" "b").memory = [] ∧
    (chat_stream ⟨⟨true, ["c"], true, [0]⟩, fun s => s.length, Except.ok "r",
        ["x"], true, "err"⟩ UserProfile.init [] "hello there my friend" "b").memory = [] ∧
    (chat_stream ⟨⟨true, ["c"], true, [0]⟩, fun s => s.length, Except.ok "r",
        [], false, ""⟩ UserProfile.init [] "hello there my friend" "b").memory = [] :=
  ⟨(C5_failure_paths_do_not_persist _ _ _ _ _).1 "boom" rfl,
   (C5_failure_paths_do_not_persist _ _ _ _ _).2.1 rfl,
   (C5_failure_paths_do_not_persist _ _ _ _ _).2.2 rfl⟩

/-- C9 (amended): empty or whitespace-only input makes both chat handlers
return/yield the fixed canned message (which contains the words "empty"
and "nothing") without invoking the completion endpoint; an input whose
*stripped* form exceeds 5000 characters is rejected with the fixed
character-limit message, likewise without invoking the endpoint. -/
theorem C9_validation (env : ChatEnv) (p : UserProfile) (mem : List ScoredMessage)
    (input base : String) :
    (pyStrip input = "" →
      (chat env p mem input base).reply = EMPTY_MSG ∧
      (chat env p mem input base).endpointCalled = false ∧
      (chat_stream env p mem input base).yields = [EMPTY_MSG] ∧
      (chat_stream env p mem input base).endpointCalled = false) ∧
    (5000 < (pyStrip input).length →
      (chat env p mem input base).reply = LIMIT_MSG ∧
      (chat env p mem input base).endpointCalled = false ∧
      (chat_stream env p mem input base).yields = [LIMIT_MSG] ∧
      (chat_stream env p mem input base).endpointCalled = false) ∧
    hasSub "empty".toList EMPTY_MSG.toList = true ∧
    hasSub "nothing".toList EMPTY_MSG.toList = true := by
  refine ⟨?_, ?_, by decide, by decide⟩
  · intro h
    rw [chat_rejects (validate_empty h), chat_stream_rejects (validate_empty h)]
    exact ⟨rfl, rfl, rfl, rfl⟩
  · intro h
    rw [chat_rejects (validate_long h), chat_stream_rejects (validate_long h)]
    exact ⟨rfl, rfl, rfl, rfl⟩

theorem replicate_append_one {α : Type} (n : Nat) (a : α) :
    List.replicate n a ++ [a] = List.replicate (n + 1) a := by
  induction n with
  | zero => rfl
  | succ m ih => rw [List.replicate_succ, List.cons_append, ih]; rfl

theorem dropWhile_ws_replicate_a (n : Nat) :
    (List.replicate (n + 1) 'a').dropWhile Char.isWhitespace =
      List.replicate (n + 1) 'a' := by
  rw [List.replicate_succ, List.dropWhile_cons_of_neg (by decide)]

theorem pyStrip_replicate_a (n : Nat) :
    pyStrip (String.mk (List.replicate (n + 1) 'a')) =
      String.mk (List.replicate (n + 1) 'a') := by
  unfold pyStrip
  rw [show (String.mk (List.replicate (n + 1) 'a')).toList = List.replicate (n + 1) 'a'
      from rfl]
  rw [dropWhile_ws_replicate_a, List.reverse_replicate, dropWhile_ws_replicate_a,
    List.reverse_replicate]

theorem pyStrip_replicate_a_space (n : Nat) :
    pyStrip (String.mk (List.replicate (n + 1) 'a' ++ [' '])) =
      String.mk (List.replicate (n + 1) 'a') := by
  unfold pyStrip
  rw [show (String.mk (List.replicate (n + 1) 'a' ++ [' '])).toList =
      List.replicate (n + 1) 'a' ++ [' '] from rfl]
  rw [show List.replicate (n + 1) 'a' ++ [' '] = 'a' :: (List.replicate n 'a' ++ [' '])
      from by rw [List.replicate_succ, List.cons_append]]
  rw [List.dropWhile_cons_of_neg (by decide)]
  rw [show ('a' :: (List.replicate n 'a' ++ [' '])).reverse =
      ' ' :: List.replicate (n + 1) 'a' from by
    rw [List.reverse_cons, List.reverse_append, List.reverse_replicate]
    rw [show ([' '] : List Char).reverse = [' '] from rfl]
    rw [List.singleton_append, List.cons_append, replicate_append_one]]
  rw [List.dropWhile_cons_of_pos (by decide)]
  rw [dropWhile_ws_replicate_a, List.reverse_replicate]

theorem length_mk_replicate_a (n : Nat) :
    (String.mk (List.replicate n 'a')).length = n := by
  show (List.replicate n 'a').length = n
  exact List.length_replicate n 'a'

/-- Witness for C9: the inputs `""`, `"   "` and a 5001-character all-`a`
string, against a concrete environment. -/
theorem C9_witness :
    ((chat ⟨⟨true, ["c"], true, [0]⟩, fun s => s.length, Except.ok "r", [], false, ""⟩
        UserProfile.init [] "" "b").reply = EMPTY_MSG ∧
      (chat ⟨⟨true, ["c"], true, [0]⟩, fun s => s.length, Except.ok "r", [], false, ""⟩
        UserProfile.init [] "" "b").endpointCalled = false ∧
      (chat_stream ⟨⟨true, ["c"], true, [0]⟩, fun s => s.length, Except.ok "r", [], false, ""⟩
        UserProfile.init [] "" "b").yields = [EMPTY_MSG] ∧
      (chat_stream ⟨⟨true, ["c"], true, [0]⟩, fun s => s.length, Except.ok "r", [], false, ""⟩
        UserProfile.init [] "" "b").endpointCalled = false) ∧
    ((chat ⟨⟨true, ["c"], true, [0]⟩, fun s => s.length, Except.ok "r", [], false, ""⟩
        UserProfile.init [] "   " "b").reply = EMPTY_MSG ∧
      (chat ⟨⟨true, ["c"], true, [0]⟩, fun s => s.length, Except.ok "r", [], false, ""⟩
        UserProfile.init [] "   " "b").endpointCalled = false ∧
      (chat_stream ⟨⟨true, ["c"], true, [0]⟩, fun s => s.length, Except.ok "r", [], false, ""⟩
        UserProfile.init [] "   " "b").yields = [EMPTY_MSG] ∧
      (chat_stream ⟨⟨true, ["c"], true, [0]⟩, fun s => s.length, Except.ok "r", [], false, ""⟩
        UserProfile.init [] "   " "b").endpointCalled = false) ∧
    ((chat ⟨⟨true, ["c"], true, [0]⟩, fun s => s.length, Except.ok "r", [], false, ""⟩
        UserProfile.init [] (String.mk (List.replicate 5001 'a')) "b").reply = LIMIT_MSG ∧
      (chat ⟨⟨true, ["c"], true, [0]⟩, fun s => s.length, Except.ok "r", [], false, ""⟩
        UserProfile.init [] (String.mk (List.replicate 5001 'a')) "b").endpointCalled = false ∧
      (chat_stream ⟨⟨true, ["c"], true, [0]⟩, fun s => s.length, Except.ok "r", [], false, ""⟩
        UserProfile.init [] (String.mk (List.replicate 5001 'a')) "b").yields = [LIMIT_MSG] ∧
      (chat_stream ⟨⟨true, ["c"], true, [0]⟩, fun s => s.length, Except.ok "r", [], false, ""⟩
        UserProfile.init [] (String.mk (List.replicate 5001 'a')) "b").endpointCalled
          = false) :=
  ⟨(C9_validation _ _ _ _ _).1 rfl,
   (C9_validation _ _ _ _ _).1 rfl,
   (C9_validation _ _ _ _ _).2.1 (by
    rw [show (5001 : Nat) = 5000 + 1 from rfl, pyStrip_replicate_a 5000,
      length_mk_replicate_a]
    norm_num)⟩

/-- C9 (counterexample): an input of 5001 characters ending in a space
passes validation — the 5000-character check runs on the *stripped* text —
so the completion endpoint is invoked, contradicting the claim that inputs
longer than 5000 characters are rejected without calling the endpoint. -/
theorem chat_accepts_calls_endpoint (env : ChatEnv) (p : UserProfile)
    (mem : List ScoredMessage) (input base cleaned : String)
    (hv : _validate_input input = (some cleaned, none))
    (msgs : List Message)
    (hb : (_build_llm_messages env p mem cleaned base).1 = Except.ok msgs) :
    (chat env p mem input base).endpointCalled = true := by
  simp only [chat, hv, Option.getD_some]
  rw [hb]
  cases env.completionResult <;> rfl

theorem C9_counterexample :
    (String.mk (List.replicate 5000 'a' ++ [' '])).length = 5001 ∧
    (chat ⟨⟨true, ["c"], true, [0]⟩, fun s => s.length, Except.ok "r", [], false, ""⟩
        UserProfile.init [] (String.mk (List.replicate 5000 'a' ++ [' ']))
        "b").endpointCalled = true := by
  constructor
  · show (List.replicate 5000 'a' ++ [' ']).length = 5001
    rw [List.length_append, List.length_replicate]
    rfl
  · have hne : String.mk (List.replicate 5000 'a' ++ [' ']) ≠ "" := by
      intro h
      have hd := congrArg String.data h
      have hl := congrArg List.length hd
      rw [List.length_append, List.length_replicate] at hl
      exact absurd hl (by norm_num [String.data])
    have hne2 : String.mk (List.replicate 5000 'a') ≠ "" := by
      intro h
      have hd := congrArg String.data h
      have hl := congrArg List.length hd
      rw [List.length_replicate] at hl
      exact absurd hl (by norm_num [String.data])
    have hstrip : pyStrip (String.mk (List.replicate 5000 'a' ++ [' '])) =
        String.mk (List.replicate 5000 'a') := by
      rw [show (5000 : Nat) = 4999 + 1 from rfl]
      exact pyStrip_replicate_a_space 4999
    have hlen : ¬ ((String.mk (List.replicate 5000 'a')).length > 5000) := by
      rw [length_mk_replicate_a]
      norm_num
    have hv : _validate_input (String.mk (List.replicate 5000 'a' ++ [' '])) =
        (some (String.mk (List.replicate 5000 'a')), none) := by
      unfold _validate_input
      rw [if_neg hne]
      simp only [hstrip]
      rw [if_neg hne2, if_neg hlen]
    exact chat_accepts_calls_endpoint _ _ _ _ _ _ hv _ rfl

end RoastBot
